import Mathlib

/-!
# Verification of the timesheet backend authentication subsystem

Shallow embedding of `src/auth.py` (the `AuthService` class together with the
module-level stores `temp_token_store` and `active_tokens`) and of
`src/dependencies.py`.  Time is modelled as integer epoch seconds; the
`datetime.utcnow()` clock is passed explicitly to every operation.  Python
dictionaries are modelled as association lists with first-match lookup,
replace-in-place assignment and key removal, which coincides with dict
semantics because dict keys are unique.  The JWT layer (python-jose) is
modelled as a transparent signed container: `jwt.encode` normalises a
datetime `exp` claim to its integer timestamp and attaches the signing
secret, and `jwt.decode` with default options rejects a wrong secret
(InvalidSignature) and an integer `exp` claim lying in the past
(ExpiredSignatureError), exactly as python-jose does by default.
Exceptions become `Except` values; error constructors record whether the
Python exception would be an `HTTPException` produced by the
`except JWTError` handlers of the source, or an exception escaping those
handlers.
-/

/-- A value stored in a Python dict / JWT payload: a string, an int, or a
`datetime` object (carried with its epoch-seconds value). -/
inductive PyVal where
  | s : String → PyVal
  | i : Int → PyVal
  | dt : Int → PyVal
deriving DecidableEq, Repr

/-- A JWT payload / Python dict with string keys, in insertion order. -/
abbrev Payload := List (String × PyVal)

/-- Python `payload.get(key)` — first-match association-list lookup. -/
def pget : Payload → String → Option PyVal
  | [], _ => none
  | (k, v) :: rest, key => if k = key then some v else pget rest key

/-- Python `key in payload`. -/
def phas (p : Payload) (k : String) : Bool :=
  (pget p k).isSome

/-- Constant `SECRET_KEY` from `src/auth.py` (default value). -/
def SECRET_KEY : String := "your-strong-secret-key"

/-- Constant `REFRESH_SECRET_KEY` from `src/auth.py` (default value). -/
def REFRESH_SECRET_KEY : String := "your-refresh-secret-key"

/-- Constant `ACCESS_TOKEN_EXPIRE_MINUTES = 15` from `src/auth.py`. -/
def ACCESS_TOKEN_EXPIRE_MINUTES : Int := 15

/-- Constant `REFRESH_TOKEN_EXPIRE_DAYS = 7` from `src/auth.py`. -/
def REFRESH_TOKEN_EXPIRE_DAYS : Int := 7

/-- Constant `TEMP_TOKEN_EXPIRE_MINUTES = 5` from `src/auth.py`. -/
def TEMP_TOKEN_EXPIRE_MINUTES : Int := 5

/-- The pydantic `TokenData` model from `src/schemas.py`. -/
structure TokenData where
  username : String
  role : String
  empid : Int
deriving DecidableEq, Repr

/-- Source `token_data.model_dump()`: the dict `{username, role, empid}` in
field declaration order. -/
def TokenData.model_dump (td : TokenData) : Payload :=
  [("username", PyVal.s td.username), ("role", PyVal.s td.role),
   ("empid", PyVal.i td.empid)]

/-- An encoded JWT, modelled transparently as its (normalised) payload
together with the secret it was signed with.  The python-jose encoding of a
given payload and secret is deterministic, so equality of these values
models equality of the token strings. -/
structure Jwt where
  payload : Payload
  secret : String
deriving DecidableEq, Repr

/-- Models that python-jose converts a `datetime` value of the registered
`exp` claim to an integer timestamp while encoding — `jwt.encode` performs
this conversion by mutating the claims dict in place before signing, so
the dict the caller passed in also holds the integer afterwards; other
claims pass through unchanged. -/
def normalize_claim (k : String) (v : PyVal) : PyVal :=
  match k, v with
  | "exp", PyVal.dt t => PyVal.i t
  | _, v => v

/-- Source `jwt.encode(payload, secret, algorithm="HS256")`. -/
def jwt_encode (payload : Payload) (secret : String) : Jwt :=
  ⟨payload.map (fun kv => (kv.1, normalize_claim kv.1 kv.2)), secret⟩

/-- The distinct `JWTError` situations raised in `src/auth.py` and inside
python-jose; each constructor corresponds to one error message. -/
inductive JWTErrorKind where
  /-- Raised by jose: signature verification failed (wrong secret). -/
  | signatureInvalid
  /-- Raised by jose as `ExpiredSignatureError`: the decode-time `exp`
  check failed. -/
  | signatureHasExpired
  /-- Raised by jose as `JWTClaimsError`: `exp` claim not convertible to
  an int. -/
  | claimsError
  /-- Source `JWTError("Token not found or revoked")`, auth.py
  line 119 / 138. -/
  | tokenNotFoundOrRevoked
  /-- Source `JWTError("Invalid token type")`, auth.py line 156. -/
  | invalidTokenType
  /-- Source `JWTError("Token expired")`, auth.py line 159. -/
  | tokenExpired
  /-- Source `JWTError("IP address changed")`, auth.py line 162. -/
  | ipAddressChanged
  /-- Source `JWTError("Missing required claims")`, auth.py line 167. -/
  | missingRequiredClaims
deriving DecidableEq, Repr

/-- Source `jwt.decode(token, secret, algorithms=["HS256"])` with the
python-jose default options: verifies the signature against `secret` and,
when an `exp` claim is present, verifies (with zero leeway) that it has
not passed. -/
def jwt_decode (tok : Jwt) (secret : String) (now : Int) : Except JWTErrorKind Payload :=
  if tok.secret ≠ secret then Except.error JWTErrorKind.signatureInvalid
  else
    match pget tok.payload "exp" with
    | some (PyVal.i e) =>
        if e < now then Except.error JWTErrorKind.signatureHasExpired
        else Except.ok tok.payload
    | some _ => Except.error JWTErrorKind.claimsError
    | none => Except.ok tok.payload

/-- Exceptions raisable by `_validate_token_payload`: a `JWTError`, a
`KeyError` from `payload["exp"]`, or a `TypeError` from
`datetime.fromtimestamp` applied to a non-number. -/
inductive PyError where
  | jwtError : JWTErrorKind → PyError
  | keyError : PyError
  | typeErr : PyError
deriving DecidableEq, Repr

/-- Source `AuthService._validate_token_payload(payload, client_ip,
token_type)`, auth.py lines 153–167, at clock `now`.  The checks run in
source order: token type, expiry, bound IP, required claims
`["sub", "role", "empid"]`. -/
def validate_token_payload (payload : Payload) (client_ip : String)
    (token_type : String) (now : Int) : Except PyError Unit :=
  if pget payload "type" ≠ some (PyVal.s token_type) then
    Except.error (PyError.jwtError JWTErrorKind.invalidTokenType)
  else
    match pget payload "exp" with
    | none => Except.error PyError.keyError
    | some (PyVal.i e) =>
        if now > e then Except.error (PyError.jwtError JWTErrorKind.tokenExpired)
        else if pget payload "ip" ≠ some (PyVal.s client_ip) then
          Except.error (PyError.jwtError JWTErrorKind.ipAddressChanged)
        else if phas payload "sub" && phas payload "role" && phas payload "empid" then
          Except.ok ()
        else
          Except.error (PyError.jwtError JWTErrorKind.missingRequiredClaims)
    | some _ => Except.error PyError.typeErr

/-- Source `TokenData(**{k: v for k, v in payload.items() if k in
TokenData.__annotations__})`: builds a `TokenData` from the `username`,
`role` and `empid` entries of the payload; `none` models the pydantic
`ValidationError` raised when one is absent or of the wrong type. -/
def tokendata_from_payload (payload : Payload) : Option TokenData :=
  match pget payload "username", pget payload "role", pget payload "empid" with
  | some (PyVal.s u), some (PyVal.s r), some (PyVal.i e) => some ⟨u, r, e⟩
  | _, _, _ => none

/-- A record of the module-level dict `temp_token_store`:
`{expires_at, used, ip}`. -/
structure TempRec where
  expires_at : Int
  used : Bool
  ip : String
deriving DecidableEq, Repr

/-- The `temp_token_store` dict, keyed by the opaque token string. -/
abbrev TempStore := List (String × TempRec)

/-- Dict lookup in `temp_token_store`. -/
def tget : TempStore → String → Option TempRec
  | [], _ => none
  | (k, v) :: rest, key => if k = key then some v else tget rest key

/-- Dict assignment `temp_token_store[token] = record`: replaces the entry
in place when the key is present, appends otherwise. -/
def tset : TempStore → String → TempRec → TempStore
  | [], k, v => [(k, v)]
  | (k0, v0) :: rest, k, v =>
      if k0 = k then (k, v) :: rest else (k0, v0) :: tset rest k v

/-- Source `AuthService.create_temp_token(client_ip)`, auth.py lines 36–48.
The random string produced by `secrets.token_urlsafe(32)` is supplied as
the parameter `tokenStr`; the store gains `{expires_at = now + 5 min,
used = False, ip = client_ip}`. -/
def create_temp_token (tokenStr : String) (client_ip : String) (now : Int)
    (st : TempStore) : TempStore :=
  tset st tokenStr ⟨now + TEMP_TOKEN_EXPIRE_MINUTES * 60, false, client_ip⟩

/-- Source `AuthService.verify_temp_token(token, client_ip)`, auth.py lines
50–67: a read-only check (the Python body only performs `.get` and field
reads, so it is modelled as a pure function of the store). -/
def verify_temp_token (token : String) (client_ip : String) (now : Int)
    (st : TempStore) : Bool :=
  match tget st token with
  | none => false
  | some r =>
      if now > r.expires_at then false
      else if r.used then false
      else if r.ip ≠ client_ip then false
      else true

/-- Source `AuthService.mark_temp_token_used(token)`, auth.py lines 69–72:
sets `used = True` when the token is present, no-op otherwise. -/
def mark_temp_token_used (token : String) (st : TempStore) : TempStore :=
  st.map (fun kv =>
    (kv.1, if kv.1 = token then ⟨kv.2.expires_at, true, kv.2.ip⟩ else kv.2))

/-- A record of the module-level dict `active_tokens`:
`{empid, ip, exp, created_at}`.  The `exp` field is a `PyVal` mirroring
the dynamically typed dict value; both minting functions in fact store an
integer timestamp — `create_access_token` computes it directly, and in
`create_refresh_token` the `jwt.encode` call has already mutated
`payload["exp"]` from a `datetime` to an integer by the time line 109
reads it. -/
structure ActiveRec where
  empid : Int
  ip : String
  exp : PyVal
  created_at : Int
deriving DecidableEq, Repr

/-- The `active_tokens` dict (the session registry), keyed by token. -/
abbrev ActiveTokens := List (Jwt × ActiveRec)

/-- Dict lookup in `active_tokens`. -/
def aget : ActiveTokens → Jwt → Option ActiveRec
  | [], _ => none
  | (k, v) :: rest, key => if k = key then some v else aget rest key

/-- Dict assignment `active_tokens[token] = record`. -/
def aset : ActiveTokens → Jwt → ActiveRec → ActiveTokens
  | [], k, v => [(k, v)]
  | (k0, v0) :: rest, k, v =>
      if k0 = k then (k, v) :: rest else (k0, v0) :: aset rest k v

/-- Dict deletion `del active_tokens[token]`: removes the entry with that
key (dict keys are unique, so removing every match coincides with dict
deletion). -/
def adel : ActiveTokens → Jwt → ActiveTokens
  | [], _ => []
  | (k0, v0) :: rest, k =>
      if k0 = k then adel rest k else (k0, v0) :: adel rest k

/-- Python `token in active_tokens`. -/
def acontains (st : ActiveTokens) (k : Jwt) : Bool :=
  (aget st k).isSome

/-- Source `AuthService.create_access_token(token_data, client_ip)`,
auth.py lines 74–93: builds the payload
`model_dump() ∪ {exp, ip, type="access"}` with an integer
`exp = now + 15 min`, signs it with `SECRET_KEY`, and registers the token
in `active_tokens` with the integer `exp`. -/
def create_access_token (token_data : TokenData) (client_ip : String)
    (now : Int) (st : ActiveTokens) : Jwt × ActiveTokens :=
  let exp : Int := now + ACCESS_TOKEN_EXPIRE_MINUTES * 60
  let payload : Payload := token_data.model_dump ++
    [("exp", PyVal.i exp), ("ip", PyVal.s client_ip), ("type", PyVal.s "access")]
  let token := jwt_encode payload SECRET_KEY
  (token, aset st token ⟨token_data.empid, client_ip, PyVal.i exp, now⟩)

/-- Source `AuthService.create_refresh_token(token_data, client_ip)`,
auth.py lines 95–113: like `create_access_token` but the `exp` entry of
the payload is built as the `datetime` object `utcnow() + 7 days` and the
secret is `REFRESH_SECRET_KEY`.  The python-jose `jwt.encode` call at
line 103 mutates the claims dict in place, replacing that `datetime` with
its integer timestamp, so when line 109 stores `payload["exp"]` in the
registry entry it stores the integer. -/
def create_refresh_token (token_data : TokenData) (client_ip : String)
    (now : Int) (st : ActiveTokens) : Jwt × ActiveTokens :=
  let exp : Int := now + REFRESH_TOKEN_EXPIRE_DAYS * 24 * 60 * 60
  let payload : Payload := token_data.model_dump ++
    [("exp", PyVal.dt exp), ("ip", PyVal.s client_ip), ("type", PyVal.s "refresh")]
  let token := jwt_encode payload REFRESH_SECRET_KEY
  (token, aset st token ⟨token_data.empid, client_ip, PyVal.i exp, now⟩)

/-- How a failed token verification leaves `verify_access_token` /
`verify_refresh_token`: either as the `HTTPException(401, ...)` built by
the `except JWTError` handler, or as an exception that escapes the
handler — the registry-membership `JWTError` is raised before the `try`
block (auth.py lines 118–119 and 137–138) and so is never converted to a
401. -/
inductive VerifyOutcome where
  /-- An `HTTPException(status_code=401, ...)` raised by the handler. -/
  | http401 : JWTErrorKind → VerifyOutcome
  /-- A `JWTError` escaping the function uncaught. -/
  | uncaughtJWT : JWTErrorKind → VerifyOutcome
  /-- A `KeyError` escaping (not a `JWTError`). -/
  | uncaughtKey : VerifyOutcome
  /-- A `TypeError` escaping (not a `JWTError`). -/
  | uncaughtType : VerifyOutcome
  /-- A pydantic `ValidationError` escaping (not a `JWTError`). -/
  | uncaughtPydantic : VerifyOutcome
deriving DecidableEq, Repr

/-- Source `AuthService.verify_access_token(token, client_ip)`, auth.py
lines 115–132. -/
def verify_access_token (token : Jwt) (client_ip : String) (now : Int)
    (st : ActiveTokens) : Except VerifyOutcome TokenData :=
  if acontains st token then
    match jwt_decode token SECRET_KEY now with
    | Except.error e => Except.error (VerifyOutcome.http401 e)
    | Except.ok payload =>
        match validate_token_payload payload client_ip "access" now with
        | Except.error (PyError.jwtError e) => Except.error (VerifyOutcome.http401 e)
        | Except.error PyError.keyError => Except.error VerifyOutcome.uncaughtKey
        | Except.error PyError.typeErr => Except.error VerifyOutcome.uncaughtType
        | Except.ok _ =>
            match tokendata_from_payload payload with
            | some td => Except.ok td
            | none => Except.error VerifyOutcome.uncaughtPydantic
  else Except.error (VerifyOutcome.uncaughtJWT JWTErrorKind.tokenNotFoundOrRevoked)

/-- Source `AuthService.verify_refresh_token(token, client_ip)`, auth.py
lines 134–151: identical shape, with `REFRESH_SECRET_KEY` and kind
`"refresh"`. -/
def verify_refresh_token (token : Jwt) (client_ip : String) (now : Int)
    (st : ActiveTokens) : Except VerifyOutcome TokenData :=
  if acontains st token then
    match jwt_decode token REFRESH_SECRET_KEY now with
    | Except.error e => Except.error (VerifyOutcome.http401 e)
    | Except.ok payload =>
        match validate_token_payload payload client_ip "refresh" now with
        | Except.error (PyError.jwtError e) => Except.error (VerifyOutcome.http401 e)
        | Except.error PyError.keyError => Except.error VerifyOutcome.uncaughtKey
        | Except.error PyError.typeErr => Except.error VerifyOutcome.uncaughtType
        | Except.ok _ =>
            match tokendata_from_payload payload with
            | some td => Except.ok td
            | none => Except.error VerifyOutcome.uncaughtPydantic
  else Except.error (VerifyOutcome.uncaughtJWT JWTErrorKind.tokenNotFoundOrRevoked)

/-- Source `AuthService.revoke_token(token)`, auth.py lines 275–280:
returns `True` and removes the registry entry when present, returns
`False` otherwise. -/
def revoke_token (token : Jwt) (st : ActiveTokens) : Bool × ActiveTokens :=
  if acontains st token then (true, adel st token) else (false, st)

/-- The pydantic `Token` response model from `src/schemas.py`. -/
structure Token where
  access_token : Jwt
  refresh_token : Jwt
  token_type : String
deriving DecidableEq, Repr

/-- Source `AuthService.refresh_token(refresh_token, client_ip)`, auth.py
lines 223–235: verifies the refresh token, then mints and registers a new
access token; the refresh token itself is returned unchanged. -/
def refresh_token (rtoken : Jwt) (client_ip : String) (now : Int)
    (st : ActiveTokens) : Except VerifyOutcome (Token × ActiveTokens) :=
  match verify_refresh_token rtoken client_ip now st with
  | Except.error e => Except.error e
  | Except.ok td =>
      let r := create_access_token td client_ip now st
      Except.ok (⟨r.1, rtoken, "bearer"⟩, r.2)

/-- The `Employee` ORM row fields consulted by authentication
(`src/model.py` via `authenticate_user`). -/
structure Employee where
  empid : Int
  username : String
  role : String
  password_hash : String
deriving DecidableEq, Repr

/-- Source `select(Employee).where(Employee.username == username)` followed
by `.scalars().first()`: the first row whose username matches, if any. -/
def find_user : List Employee → String → Option Employee
  | [], _ => none
  | u :: rest, uname => if u.username = uname then some u else find_user rest uname

/-- The exception passlib raises from `CryptContext.verify` when the hash
string cannot be identified as a bcrypt hash (`UnknownHashError`, a
`ValueError`). -/
inductive PasslibError where
  | unknownHash
deriving DecidableEq, Repr

/-- Character-list prefix test (Python `h.startswith(p)`). -/
def chars_start_with : List Char → List Char → Bool
  | _, [] => true
  | [], _ :: _ => false
  | c :: cs, d :: ds => c == d && chars_start_with cs ds

/-- Whether the passlib bcrypt handler identifies the hash string: it must
start with one of the bcrypt ident prefixes. -/
def bcrypt_ident_ok (h : String) : Bool :=
  chars_start_with h.data "$2$".data || chars_start_with h.data "$2a$".data ||
    chars_start_with h.data "$2b$".data || chars_start_with h.data "$2x$".data ||
    chars_start_with h.data "$2y$".data

/-- Source `AuthService.verify_password(plain_password, hashed_password)`,
auth.py lines 169–170, which delegates to
`CryptContext(schemes=["bcrypt"]).verify`: passlib raises
`UnknownHashError` when the hash is not identifiable as bcrypt, otherwise
it returns the boolean outcome of the bcrypt comparison, abstracted here
as the parameter `bcryptCheck`. -/
def verify_password (bcryptCheck : String → String → Bool)
    (plain_password hashed_password : String) : Except PasslibError Bool :=
  if bcrypt_ident_ok hashed_password then
    Except.ok (bcryptCheck plain_password hashed_password)
  else Except.error PasslibError.unknownHash

/-- The failure modes of the login flow, auth.py lines 175–221. -/
inductive LoginOutcome where
  /-- An `HTTPException(401, "Invalid or expired temporary token")`. -/
  | invalidTempToken
  /-- An `HTTPException(401, "Invalid credentials")`. -/
  | invalidCredentials
  /-- An `UnknownHashError` escaping `verify_password` uncaught. -/
  | passlibFailure
deriving DecidableEq, Repr

/-- Source `AuthService.authenticate_user(db, username, password)`, auth.py
lines 175–193: a missing user or a failed password check both yield the
401 `"Invalid credentials"`; `not user` short-circuits before the hash
check. -/
def authenticate_user (db : List Employee)
    (bcryptCheck : String → String → Bool) (username password : String) :
    Except LoginOutcome TokenData :=
  match find_user db username with
  | none => Except.error LoginOutcome.invalidCredentials
  | some u =>
      match verify_password bcryptCheck password u.password_hash with
      | Except.error _ => Except.error LoginOutcome.passlibFailure
      | Except.ok true => Except.ok ⟨u.username, u.role, u.empid⟩
      | Except.ok false => Except.error LoginOutcome.invalidCredentials

/-- The pydantic `LoginRequest` model from `src/schemas.py`. -/
structure LoginRequest where
  username : String
  password : String
  temp_token : String
deriving DecidableEq, Repr

/-- The process-wide mutable state: `temp_token_store` and
`active_tokens`. -/
structure AuthState where
  temp_token_store : TempStore
  active_tokens : ActiveTokens
deriving DecidableEq, Repr

/-- Source `AuthService.login(login_data, db, client_ip)`, auth.py lines
195–221: (1) verify the temp token, (2) authenticate the credentials,
(3) mark the temp token used, (4) mint and register the access and then
the refresh token. -/
def login (db : List Employee) (bcryptCheck : String → String → Bool)
    (login_data : LoginRequest) (client_ip : String) (now : Int)
    (s : AuthState) : Except LoginOutcome Token × AuthState :=
  if verify_temp_token login_data.temp_token client_ip now s.temp_token_store then
    match authenticate_user db bcryptCheck login_data.username login_data.password with
    | Except.error e => (Except.error e, s)
    | Except.ok token_data =>
        let ts := mark_temp_token_used login_data.temp_token s.temp_token_store
        let a1 := create_access_token token_data client_ip now s.active_tokens
        let a2 := create_refresh_token token_data client_ip now a1.2
        (Except.ok ⟨a1.1, a2.1, "bearer"⟩, ⟨ts, a2.2⟩)
  else (Except.error LoginOutcome.invalidTempToken, s)

/-- Whether `datetime.fromtimestamp(v["exp"])` in the sweep succeeds on the
recorded expiry of a registry entry: it does only for a number. -/
def exp_is_int : PyVal → Bool
  | PyVal.i _ => true
  | _ => false

/-- Whether a registry entry counts as expired in the sweep comparison
`datetime.fromtimestamp(v["exp"]) < now` (defined for integer expiries). -/
def active_expired (now : Int) (v : ActiveRec) : Bool :=
  match v.exp with
  | PyVal.i e => decide (e < now)
  | _ => false

/-- One iteration of the loop body of
`AuthService.cleanup_expired_tokens`, auth.py lines 256–273: first deletes
every temp token with `expires_at < now`, then builds the expired-active
list by evaluating `datetime.fromtimestamp(v["exp"])` on every entry and
deletes the expired ones.  `fromtimestamp` would raise `TypeError` on a
non-number `exp` (the flag, true in that case, models this; the registry
would then be left unmodified), but every entry either minting function
registers holds an integer `exp`, so on program-reachable states the
sweep completes with the flag false. -/
def cleanup_expired_tokens (now : Int) (s : AuthState) : AuthState × Bool :=
  let ts := s.temp_token_store.filter (fun kv => ! decide (kv.2.expires_at < now))
  if s.active_tokens.all (fun kv => exp_is_int kv.2.exp) then
    (⟨ts, s.active_tokens.filter (fun kv => ! active_expired now kv.2)⟩, false)
  else
    (⟨ts, s.active_tokens⟩, true)

/-- How `get_current_user` terminates when it does not return claims. -/
inductive GcuOutcome where
  /-- An `HTTPException(401, "Missing access token")`. -/
  | http401Missing
  /-- An `HTTPException(401, "Invalid or expired credentials")`. -/
  | http401Generic
  /-- A `JWTError` escaping the function uncaught (`except HTTPException`
  does not catch it). -/
  | uncaughtJWT : JWTErrorKind → GcuOutcome
  /-- Some other non-`HTTPException` exception escaping. -/
  | uncaughtOther
deriving DecidableEq, Repr

/-- Source `AuthService.get_current_user(request)`, auth.py lines 282–314
(the function of the same name in `src/dependencies.py` lines 5–40 has the
same control flow): read the `access_token` cookie, 401 if absent;
otherwise verify it, and on an `HTTPException` attempt one refresh via the
`refresh_token` cookie; any `HTTPException` in the refresh path falls
through to the generic 401, while non-`HTTPException` exceptions (such as
the raw `JWTError` from the registry-membership check) propagate.  Returns
the outcome together with the final `active_tokens` state. -/
def get_current_user (access_cookie refresh_cookie : Option Jwt)
    (client_ip : String) (now : Int) (st : ActiveTokens) :
    Except GcuOutcome TokenData × ActiveTokens :=
  match access_cookie with
  | none => (Except.error GcuOutcome.http401Missing, st)
  | some token =>
    match verify_access_token token client_ip now st with
    | Except.ok td => (Except.ok td, st)
    | Except.error (VerifyOutcome.uncaughtJWT e) =>
        (Except.error (GcuOutcome.uncaughtJWT e), st)
    | Except.error VerifyOutcome.uncaughtKey => (Except.error GcuOutcome.uncaughtOther, st)
    | Except.error VerifyOutcome.uncaughtType => (Except.error GcuOutcome.uncaughtOther, st)
    | Except.error VerifyOutcome.uncaughtPydantic => (Except.error GcuOutcome.uncaughtOther, st)
    | Except.error (VerifyOutcome.http401 _) =>
        match refresh_cookie with
        | none => (Except.error GcuOutcome.http401Generic, st)
        | some rt =>
            match refresh_token rt client_ip now st with
            | Except.error (VerifyOutcome.http401 _) =>
                (Except.error GcuOutcome.http401Generic, st)
            | Except.error (VerifyOutcome.uncaughtJWT e) =>
                (Except.error (GcuOutcome.uncaughtJWT e), st)
            | Except.error VerifyOutcome.uncaughtKey =>
                (Except.error GcuOutcome.uncaughtOther, st)
            | Except.error VerifyOutcome.uncaughtType =>
                (Except.error GcuOutcome.uncaughtOther, st)
            | Except.error VerifyOutcome.uncaughtPydantic =>
                (Except.error GcuOutcome.uncaughtOther, st)
            | Except.ok r =>
                match verify_access_token r.1.access_token client_ip now r.2 with
                | Except.ok td => (Except.ok td, r.2)
                | Except.error (VerifyOutcome.http401 _) =>
                    (Except.error GcuOutcome.http401Generic, r.2)
                | Except.error (VerifyOutcome.uncaughtJWT e) =>
                    (Except.error (GcuOutcome.uncaughtJWT e), r.2)
                | Except.error VerifyOutcome.uncaughtKey =>
                    (Except.error GcuOutcome.uncaughtOther, r.2)
                | Except.error VerifyOutcome.uncaughtType =>
                    (Except.error GcuOutcome.uncaughtOther, r.2)
                | Except.error VerifyOutcome.uncaughtPydantic =>
                    (Except.error GcuOutcome.uncaughtOther, r.2)

/-! ## Store lemmas -/

/-- Looking up a key just assigned in the session registry returns the
assigned record. -/
theorem aget_aset_self (st : ActiveTokens) (k : Jwt) (v : ActiveRec) :
    aget (aset st k v) k = some v := by
  induction st with
  | nil => simp [aset, aget]
  | cons hd tl ih =>
      obtain ⟨k0, v0⟩ := hd
      by_cases h : k0 = k
      · simp [aset, aget, h]
      · simp [aset, aget, h, ih]

/-- Looking up a key just deleted from the session registry returns
nothing. -/
theorem aget_adel_self (st : ActiveTokens) (k : Jwt) :
    aget (adel st k) k = none := by
  induction st with
  | nil => simp [adel, aget]
  | cons hd tl ih =>
      obtain ⟨k0, v0⟩ := hd
      by_cases h : k0 = k
      · simp [adel, h, ih]
      · simp [adel, aget, h, ih]

/-- Looking up a key just assigned in the temp-token store returns the
assigned record. -/
theorem tget_tset_self (st : TempStore) (k : String) (v : TempRec) :
    tget (tset st k v) k = some v := by
  induction st with
  | nil => simp [tset, tget]
  | cons hd tl ih =>
      obtain ⟨k0, v0⟩ := hd
      by_cases h : k0 = k
      · simp [tset, tget, h]
      · simp [tset, tget, h, ih]

/-- Marking a present temp token used leaves its record in place with the
used flag set. -/
theorem tget_mark_self (st : TempStore) (tok : String) (r : TempRec)
    (h : tget st tok = some r) :
    tget (mark_temp_token_used tok st) tok = some ⟨r.expires_at, true, r.ip⟩ := by
  induction st with
  | nil => simp [tget] at h
  | cons hd tl ih =>
      obtain ⟨k0, v0⟩ := hd
      by_cases hk : k0 = tok
      · subst hk
        simp [tget] at h
        subst h
        simp [mark_temp_token_used, tget]
      · simp only [tget, if_neg hk] at h
        simp only [mark_temp_token_used, List.map, tget, if_neg hk]
        exact ih h

/-- Characterisation of `verify_temp_token`: it returns true exactly when
the token is present, unexpired, unused, and bound to the presented IP. -/
theorem verify_temp_token_true_iff (st : TempStore) (token client_ip : String) (now : Int) :
    verify_temp_token token client_ip now st = true ↔
      ∃ r : TempRec, tget st token = some r ∧ now ≤ r.expires_at ∧
        r.used = false ∧ r.ip = client_ip := by
  cases h : tget st token with
  | none => simp [verify_temp_token, h]
  | some r =>
      simp only [verify_temp_token, h]
      by_cases h1 : now > r.expires_at
      · simp [h1]
      · by_cases h2 : r.used
        · simp [h1, h2]
        · by_cases h3 : r.ip = client_ip
          · simp [h1, h2, h3]
            omega
          · simp [h1, h2, h3]

/-- A refresh token minted by `create_refresh_token` can never be verified
successfully, whatever IP, time, or registry state it is later presented
with: the registry check, the decode expiry check, the IP check, or —
because the payload carries `username` but the validator requires `sub` —
the required-claims check always fails first. -/
theorem verify_refresh_minted_never_ok (td : TokenData) (client_ip ip2 : String)
    (now now2 : Int) (st st2 : ActiveTokens) :
    ∃ e : VerifyOutcome,
      verify_refresh_token (create_refresh_token td client_ip now st).1 ip2 now2 st2
        = Except.error e := by
  have hnum : (REFRESH_TOKEN_EXPIRE_DAYS * 24 * 60 * 60 : Int) = 604800 := by
    norm_num [REFRESH_TOKEN_EXPIRE_DAYS]
  simp only [create_refresh_token, jwt_encode, TokenData.model_dump, normalize_claim, hnum]
  cases hmem : acontains st2 ⟨[("username", PyVal.s td.username), ("role", PyVal.s td.role),
      ("empid", PyVal.i td.empid), ("exp", PyVal.i (now + 604800)),
      ("ip", PyVal.s client_ip), ("type", PyVal.s "refresh")], REFRESH_SECRET_KEY⟩ with
  | false =>
      refine ⟨VerifyOutcome.uncaughtJWT JWTErrorKind.tokenNotFoundOrRevoked, ?_⟩
      unfold verify_refresh_token
      rw [if_neg]
      simp [hmem]
  | true =>
      by_cases hlt : now + 604800 < now2
      · refine ⟨VerifyOutcome.http401 JWTErrorKind.signatureHasExpired, ?_⟩
        simp [verify_refresh_token, jwt_decode, hmem, hlt, pget]
      · have hw : ¬ (now + 604800 < now2) := by omega
        by_cases hip : client_ip = ip2
        · subst hip
          refine ⟨VerifyOutcome.http401 JWTErrorKind.missingRequiredClaims, ?_⟩
          simp [verify_refresh_token, jwt_decode, hmem, hw, validate_token_payload,
            pget, phas]
        · refine ⟨VerifyOutcome.http401 JWTErrorKind.ipAddressChanged, ?_⟩
          simp [verify_refresh_token, jwt_decode, hmem, hw, validate_token_payload,
            pget, phas, hip]

/-! ## Claim theorems -/

/-- C1: the claimed round-trip fails on the code.  For every identity claim
set, client IP, time and prior registry state, verifying the freshly
minted and registered access token with the same IP at the same time does
not return the claims: it raises the 401 HTTPException for
`JWTError("Missing required claims")`, because the minted payload stores
the username under the key `username` while `_validate_token_payload`
demands a `sub` claim.  The codec round-trip described by the claim is
therefore unachievable for any token the service mints. -/
theorem C1_minted_access_token_fails_missing_claims (td : TokenData)
    (client_ip : String) (now : Int) (st : ActiveTokens) :
    verify_access_token (create_access_token td client_ip now st).1 client_ip now
      (create_access_token td client_ip now st).2
      = Except.error (VerifyOutcome.http401 JWTErrorKind.missingRequiredClaims) := by
  have hne : ¬ (now + 15 * 60 < now) := by omega
  have hgt : ¬ (now > now + 15 * 60) := by omega
  simp [verify_access_token, create_access_token, jwt_decode, validate_token_payload,
    acontains, aget_aset_self, hne, hgt, pget, phas, jwt_encode, TokenData.model_dump,
    normalize_claim, SECRET_KEY, ACCESS_TOKEN_EXPIRE_MINUTES]

/-- C2: for every state whose registry entries all carry integer recorded
expiries — which every minting operation maintains, `jwt.encode` having
mutated the refresh `exp` to an integer before registration — one
iteration of the expiry sweep completes without failing (the flag is
false), and an entry remains in the temp store exactly when it was there
and its `expires_at` is not before `now`, and a session-registry entry
(access or refresh alike) remains exactly when it was there and its
recorded expiry is not before `now`; the final conjunct shows a freshly
registered refresh token indeed carries the integer expiry, so the
hypothesis holds for the states the program produces. -/
theorem C2_sweep_removes_exactly_expired (now : Int) (s : AuthState)
    (hint : s.active_tokens.all (fun kv => exp_is_int kv.2.exp) = true) :
    (cleanup_expired_tokens now s).2 = false ∧
    (∀ (k : String) (v : TempRec),
      (k, v) ∈ (cleanup_expired_tokens now s).1.temp_token_store ↔
        ((k, v) ∈ s.temp_token_store ∧ ¬ (v.expires_at < now))) ∧
    (∀ (k : Jwt) (v : ActiveRec),
      (k, v) ∈ (cleanup_expired_tokens now s).1.active_tokens ↔
        ((k, v) ∈ s.active_tokens ∧ active_expired now v = false)) ∧
    (∀ (td : TokenData) (ip : String) (now0 : Int) (st0 : ActiveTokens),
      aget ((create_refresh_token td ip now0 st0).2)
          (create_refresh_token td ip now0 st0).1
        = some ⟨td.empid, ip,
            PyVal.i (now0 + REFRESH_TOKEN_EXPIRE_DAYS * 24 * 60 * 60), now0⟩) := by
  refine ⟨?_, ?_, ?_, ?_⟩
  · simp [cleanup_expired_tokens, hint]
  · intro k v
    simp [cleanup_expired_tokens, hint, List.mem_filter]
  · intro k v
    simp [cleanup_expired_tokens, hint, List.mem_filter]
  · intro td ip now0 st0
    simp [create_refresh_token, aget_aset_self]

/-- Witness for C2 at a concrete state holding one expired and one live
temp token and one live refresh-style registry entry. -/
theorem C2_sweep_witness :
    (cleanup_expired_tokens 50
        ⟨[("t1", ⟨5, false, "ip"⟩), ("t2", ⟨100, false, "ip"⟩)],
         [(Jwt.mk [] "k", ⟨1, "ip", PyVal.i 604800, 0⟩)]⟩).2 = false :=
  (C2_sweep_removes_exactly_expired 50
    ⟨[("t1", ⟨5, false, "ip"⟩), ("t2", ⟨100, false, "ip"⟩)],
     [(Jwt.mk [] "k", ⟨1, "ip", PyVal.i 604800, 0⟩)]⟩ rfl).1

/-- C3: revoking a registered token returns True and removes its registry
entry, a subsequent `verify_access_token` on it fails with the
`JWTError("Token not found or revoked")` — for any verification time, so
in particular while the embedded expiry has not passed — and revoking an
unknown token returns False and changes nothing; but that token-not-found
error is raised before the `try` block, so it escapes as a raw uncaught
`JWTError` rather than being surfaced as a 401 HTTPException, contrary to
the claim. -/
theorem C3_revoked_token_fails_uncaught_not_http401 (token : Jwt)
    (client_ip : String) (now : Int) (st : ActiveTokens)
    (hreg : acontains st token = true) :
    revoke_token token st = (true, adel st token) ∧
    acontains (adel st token) token = false ∧
    verify_access_token token client_ip now (adel st token)
      = Except.error (VerifyOutcome.uncaughtJWT JWTErrorKind.tokenNotFoundOrRevoked) ∧
    (∀ (st2 : ActiveTokens) (tok2 : Jwt), acontains st2 tok2 = false →
      revoke_token tok2 st2 = (false, st2)) := by
  refine ⟨?_, ?_, ?_, ?_⟩
  · simp [revoke_token, hreg]
  · simp [acontains, aget_adel_self]
  · unfold verify_access_token
    rw [if_neg]
    simp [acontains, aget_adel_self]
  · intro st2 tok2 h2
    simp [revoke_token, h2]

/-- Witness for C3 at a concrete registered token. -/
theorem C3_revoked_token_witness :
    verify_access_token (Jwt.mk [] "k") "ip" 0
        (adel [(Jwt.mk [] "k", ⟨1, "ip", PyVal.i 0, 0⟩)] (Jwt.mk [] "k"))
      = Except.error (VerifyOutcome.uncaughtJWT JWTErrorKind.tokenNotFoundOrRevoked) :=
  (C3_revoked_token_fails_uncaught_not_http401 (Jwt.mk [] "k") "ip" 0
    [(Jwt.mk [] "k", ⟨1, "ip", PyVal.i 0, 0⟩)] rfl).2.2.1

/-- C4: contrary to the claim, a present access token that fails the
registry-membership check (a revoked token) does not trigger the
transparent refresh: the raw `JWTError("Token not found or revoked")` is
not an HTTPException, so `except HTTPException` does not catch it and it
propagates out of `get_current_user` unhandled — even when a refresh
cookie is present — and the registry state is unchanged. -/
theorem C4_revoked_access_propagates_uncaught_jwt_error (token rt : Jwt)
    (client_ip : String) (now : Int) (st : ActiveTokens)
    (h : acontains st token = false) :
    get_current_user (some token) (some rt) client_ip now st
      = (Except.error (GcuOutcome.uncaughtJWT JWTErrorKind.tokenNotFoundOrRevoked), st) := by
  have hv : verify_access_token token client_ip now st
      = Except.error (VerifyOutcome.uncaughtJWT JWTErrorKind.tokenNotFoundOrRevoked) := by
    unfold verify_access_token
    rw [if_neg]
    simp [h]
  simp [get_current_user, hv]

/-- Witness for C4 at a concrete unregistered token. -/
theorem C4_revoked_access_witness :
    get_current_user (some (Jwt.mk [] "k")) (some (Jwt.mk [] "r")) "ip" 0 []
      = (Except.error (GcuOutcome.uncaughtJWT JWTErrorKind.tokenNotFoundOrRevoked), []) :=
  C4_revoked_access_propagates_uncaught_jwt_error (Jwt.mk [] "k") (Jwt.mk [] "r")
    "ip" 0 [] rfl

/-- A concrete token payload that is both of the wrong kind for an access
check (`type = "refresh"`) and expired (`exp = 50`), used to exhibit the
failure precedence actually implemented. -/
def c5_payload : Payload :=
  [("username", PyVal.s "alice"), ("role", PyVal.s "employee"), ("empid", PyVal.i 1),
   ("exp", PyVal.i 50), ("ip", PyVal.s "10.0.0.1"), ("type", PyVal.s "refresh")]

/-- C5 counterexample: contrary to the claim that decoding does not check
expiry and that a payload failing several checks reports the earliest of
WrongType, Expired, IpMismatch, MissingClaims, `jwt.decode` itself (with
the python-jose default options the source uses) rejects this
correctly-signed but expired token with `ExpiredSignatureError`, and the
full `verify_access_token` on the registered token — which has the wrong
type AND is expired — therefore reports the expiry failure, not the
claimed earliest WrongType failure. -/
theorem C5_decode_checks_expiry_counterexample :
    jwt_decode (jwt_encode c5_payload SECRET_KEY) SECRET_KEY 100
        = Except.error JWTErrorKind.signatureHasExpired ∧
    verify_access_token (jwt_encode c5_payload SECRET_KEY) "10.0.0.1" 100
        [(jwt_encode c5_payload SECRET_KEY, ⟨1, "10.0.0.1", PyVal.i 50, 0⟩)]
        = Except.error (VerifyOutcome.http401 JWTErrorKind.signatureHasExpired) :=
  ⟨rfl, rfl⟩

/-- C5 (amended): within `_validate_token_payload` the four checks do run
in the fixed order WrongType, Expired, IpMismatch, MissingClaims, with a
payload failing several checks reporting the earliest in that order, and
this single routine is the one through which both `verify_access_token`
and `verify_refresh_token` surface their 401 verdicts; decoding does not
check IP or token type — but, contrary to the original claim, decoding
itself does check expiry (the python-jose default), so an expired token
fails at decode before the type check of the routine.  The conjuncts:
each check fires exactly when all earlier checks pass; a decode of a
correctly-signed unexpired token returns the payload; and each verifier
turns the routine verdict for a registered, decodable token into the 401
HTTPException. -/
theorem C5_validation_order_amended (payload : Payload)
    (client_ip token_type : String) (now e : Int)
    (hexp : pget payload "exp" = some (PyVal.i e)) :
    ((pget payload "type" ≠ some (PyVal.s token_type) →
        validate_token_payload payload client_ip token_type now
          = Except.error (PyError.jwtError JWTErrorKind.invalidTokenType)) ∧
     (pget payload "type" = some (PyVal.s token_type) → now > e →
        validate_token_payload payload client_ip token_type now
          = Except.error (PyError.jwtError JWTErrorKind.tokenExpired)) ∧
     (pget payload "type" = some (PyVal.s token_type) → ¬ now > e →
        pget payload "ip" ≠ some (PyVal.s client_ip) →
        validate_token_payload payload client_ip token_type now
          = Except.error (PyError.jwtError JWTErrorKind.ipAddressChanged)) ∧
     (pget payload "type" = some (PyVal.s token_type) → ¬ now > e →
        pget payload "ip" = some (PyVal.s client_ip) →
        (phas payload "sub" && phas payload "role" && phas payload "empid") = false →
        validate_token_payload payload client_ip token_type now
          = Except.error (PyError.jwtError JWTErrorKind.missingRequiredClaims)) ∧
     (pget payload "type" = some (PyVal.s token_type) → ¬ now > e →
        pget payload "ip" = some (PyVal.s client_ip) →
        (phas payload "sub" && phas payload "role" && phas payload "empid") = true →
        validate_token_payload payload client_ip token_type now = Except.ok ())) ∧
    (∀ tok : Jwt, tok.payload = payload → ¬ e < now →
        jwt_decode tok tok.secret now = Except.ok payload) ∧
    (∀ (tok : Jwt) (st : ActiveTokens) (k : JWTErrorKind),
        acontains st tok = true → tok.secret = SECRET_KEY → tok.payload = payload →
        ¬ e < now →
        validate_token_payload payload client_ip "access" now
          = Except.error (PyError.jwtError k) →
        verify_access_token tok client_ip now st
          = Except.error (VerifyOutcome.http401 k)) ∧
    (∀ (tok : Jwt) (st : ActiveTokens) (k : JWTErrorKind),
        acontains st tok = true → tok.secret = REFRESH_SECRET_KEY → tok.payload = payload →
        ¬ e < now →
        validate_token_payload payload client_ip "refresh" now
          = Except.error (PyError.jwtError k) →
        verify_refresh_token tok client_ip now st
          = Except.error (VerifyOutcome.http401 k)) := by
  refine ⟨⟨?_, ?_, ?_, ?_, ?_⟩, ?_, ?_, ?_⟩
  · intro hty
    unfold validate_token_payload
    rw [if_pos hty]
  · intro hty hnow
    unfold validate_token_payload
    rw [if_neg (fun hh => hh hty), hexp]
    simp [hnow]
  · intro hty hnow hip
    unfold validate_token_payload
    rw [if_neg (fun hh => hh hty), hexp]
    simp [hnow, hip]
  · intro hty hnow hip hsub
    unfold validate_token_payload
    rw [if_neg (fun hh => hh hty), hexp]
    simp [hnow, hip, hsub]
  · intro hty hnow hip hsub
    unfold validate_token_payload
    rw [if_neg (fun hh => hh hty), hexp]
    simp [hnow, hip, hsub]
  · intro tok hpl hlt
    unfold jwt_decode
    rw [if_neg (fun hh => hh rfl), hpl, hexp]
    simp [hlt]
  · intro tok st k hmem hsec hpl hlt hval
    have hdec : jwt_decode tok SECRET_KEY now = Except.ok payload := by
      unfold jwt_decode
      rw [if_neg (fun hh => hh hsec), hpl, hexp]
      simp [hlt]
    unfold verify_access_token
    rw [if_pos hmem, hdec]
    simp [hval]
  · intro tok st k hmem hsec hpl hlt hval
    have hdec : jwt_decode tok REFRESH_SECRET_KEY now = Except.ok payload := by
      unfold jwt_decode
      rw [if_neg (fun hh => hh hsec), hpl, hexp]
      simp [hlt]
    unfold verify_refresh_token
    rw [if_pos hmem, hdec]
    simp [hval]

/-- Witness for C5 at a concrete wrong-type payload. -/
theorem C5_validation_order_witness :
    validate_token_payload [("type", PyVal.s "refresh"), ("exp", PyVal.i 10)]
        "ip" "access" 0
      = Except.error (PyError.jwtError JWTErrorKind.invalidTokenType) :=
  ((C5_validation_order_amended [("type", PyVal.s "refresh"), ("exp", PyVal.i 10)]
    "ip" "access" 0 10 rfl).1).1 (by decide)

/-- C6: a login presented with a temp token that verifies but credentials
that fail yields the 401 `"Invalid credentials"` and leaves the whole
state — in particular the temp-token store, so the used flag of the temp
token — unchanged, because `mark_temp_token_used` runs only after
credential success; the client can therefore retry with the same temp
token. -/
theorem C6_failed_credentials_preserve_temp_token (db : List Employee)
    (bc : String → String → Bool) (ld : LoginRequest) (client_ip : String)
    (now : Int) (s : AuthState)
    (htemp : verify_temp_token ld.temp_token client_ip now s.temp_token_store = true)
    (hcred : authenticate_user db bc ld.username ld.password
      = Except.error LoginOutcome.invalidCredentials) :
    login db bc ld client_ip now s = (Except.error LoginOutcome.invalidCredentials, s) := by
  unfold login
  rw [if_pos htemp, hcred]

/-- Witness for C6 at a concrete store, user table and failing password. -/
theorem C6_failed_credentials_witness :
    login [⟨1, "alice", "employee", "$2b$12$abcdefghijklmnopqrstuv"⟩]
        (fun _ _ => false) ⟨"alice", "wrong", "tmp"⟩ "ip1" 0
        ⟨[("tmp", ⟨300, false, "ip1"⟩)], []⟩
      = (Except.error LoginOutcome.invalidCredentials,
          ⟨[("tmp", ⟨300, false, "ip1"⟩)], []⟩) :=
  C6_failed_credentials_preserve_temp_token
    [⟨1, "alice", "employee", "$2b$12$abcdefghijklmnopqrstuv"⟩]
    (fun _ _ => false) ⟨"alice", "wrong", "tmp"⟩ "ip1" 0
    ⟨[("tmp", ⟨300, false, "ip1"⟩)], []⟩ rfl rfl

/-- C7: `verify_temp_token` returns true exactly when the token exists,
the current time is not past its `expires_at`, its used flag is false and
its recorded IP equals the presented IP (and, being modelled as a pure
function of the store, it mutates nothing); after a successful login
consumes a temp token, presenting that token again verifies false for any
IP and time; and a temp token issued for one IP presented from a different
IP is rejected, even before expiry. -/
theorem C7_verify_temp_token_readonly_spec (st : TempStore)
    (token client_ip : String) (now : Int) :
    (verify_temp_token token client_ip now st = true ↔
      ∃ r : TempRec, tget st token = some r ∧ now ≤ r.expires_at ∧
        r.used = false ∧ r.ip = client_ip) ∧
    (∀ (db : List Employee) (bc : String → String → Bool) (ld : LoginRequest)
        (s s2 : AuthState) (tk : Token) (ip2 : String) (now2 : Int),
      ld.temp_token = token →
      login db bc ld client_ip now s = (Except.ok tk, s2) →
      verify_temp_token token ip2 now2 s2.temp_token_store = false) ∧
    (∀ (ipA ipB tokStr : String) (now0 now1 : Int) (st0 : TempStore),
      ipA ≠ ipB →
      verify_temp_token tokStr ipB now1 (create_temp_token tokStr ipA now0 st0) = false) := by
  refine ⟨verify_temp_token_true_iff st token client_ip now, ?_, ?_⟩
  · intro db bc ld s s2 tk ip2 now2 htok hlog
    subst htok
    unfold login at hlog
    by_cases htemp : verify_temp_token ld.temp_token client_ip now s.temp_token_store = true
    · rw [if_pos htemp] at hlog
      cases hauth : authenticate_user db bc ld.username ld.password with
      | error e => rw [hauth] at hlog; simp at hlog
      | ok td =>
          rw [hauth] at hlog
          simp only [Prod.mk.injEq] at hlog
          obtain ⟨-, hs2⟩ := hlog
          obtain ⟨r, hr, -, -, -⟩ :=
            (verify_temp_token_true_iff s.temp_token_store ld.temp_token client_ip now).mp htemp
          have hmark := tget_mark_self s.temp_token_store ld.temp_token r hr
          rw [← hs2]
          by_cases h1 : now2 > r.expires_at
          · simp [verify_temp_token, hmark, h1]
          · simp [verify_temp_token, hmark, h1]
    · rw [if_neg htemp] at hlog
      simp at hlog
  · intro ipA ipB tokStr now0 now1 st0 hne
    have hself := tget_tset_self st0 tokStr
      ⟨now0 + TEMP_TOKEN_EXPIRE_MINUTES * 60, false, ipA⟩
    simp only [create_temp_token]
    by_cases h1 : now1 > now0 + TEMP_TOKEN_EXPIRE_MINUTES * 60
    · simp [verify_temp_token, hself, h1]
    · simp [verify_temp_token, hself, h1, hne]

/-- Witness for C7: a temp token issued for one IP is rejected from
another. -/
theorem C7_verify_temp_token_witness :
    verify_temp_token "t0" "2.2.2.2" 0 (create_temp_token "t0" "1.1.1.1" 0 []) = false :=
  (C7_verify_temp_token_readonly_spec [] "t0" "1.1.1.1" 0).2.2
    "1.1.1.1" "2.2.2.2" "t0" 0 0 [] (by decide)

/-- C8: the claimed refresh success fails on the code.  For every refresh
token minted and registered by `create_refresh_token` (as at login),
calling `refresh_token` from the same IP at any time before the embedded
7-day expiry — in particular after the 15-minute access TTL — does not
mint a new access token: it raises the 401 HTTPException for
`JWTError("Missing required claims")`, because the refresh payload also
lacks the `sub` claim the shared validator requires. -/
theorem C8_refresh_of_minted_token_fails_missing_claims (td : TokenData)
    (client_ip : String) (now now2 : Int) (st : ActiveTokens)
    (hwin : ¬ (now + 7 * 24 * 60 * 60 < now2)) :
    refresh_token (create_refresh_token td client_ip now st).1 client_ip now2
        (create_refresh_token td client_ip now st).2
      = Except.error (VerifyOutcome.http401 JWTErrorKind.missingRequiredClaims) := by
  have hw : ¬ (now + 604800 < now2) := by omega
  simp [refresh_token, verify_refresh_token, create_refresh_token, jwt_decode,
    validate_token_payload, acontains, aget_aset_self, hw, pget, phas,
    jwt_encode, TokenData.model_dump, normalize_claim, REFRESH_SECRET_KEY,
    REFRESH_TOKEN_EXPIRE_DAYS]

/-- Witness for C8: a concrete refresh immediately after minting. -/
theorem C8_refresh_witness :
    ¬ ((0 : Int) + 7 * 24 * 60 * 60 < 0) ∧
    refresh_token (create_refresh_token ⟨"alice", "employee", 1⟩ "ip1" 0 []).1 "ip1" 0
        (create_refresh_token ⟨"alice", "employee", 1⟩ "ip1" 0 []).2
      = Except.error (VerifyOutcome.http401 JWTErrorKind.missingRequiredClaims) :=
  ⟨by decide,
    C8_refresh_of_minted_token_fails_missing_claims ⟨"alice", "employee", 1⟩
      "ip1" 0 0 [] (by decide)⟩

/-- C9: contrary to the claim that a malformed hash string is treated as
ordinary verification failure, `verify_password` (passlib
`CryptContext.verify`) on a hash that is not identifiable as bcrypt does
not return False: it raises `UnknownHashError`, for every plaintext and
every underlying bcrypt comparison. -/
theorem C9_malformed_hash_raises_unknown_hash_error
    (bcryptCheck : String → String → Bool) (plain : String) :
    verify_password bcryptCheck plain "not-a-bcrypt-hash"
      = Except.error PasslibError.unknownHash := rfl

/-- C10: the frame effect claimed for a successful refresh is unreachable.
For every refresh token minted by `create_refresh_token` (the only way the
code registers refresh tokens), and every later IP, time, and registry
state, `refresh_token` returns an error — so the code path that would add
the freshly minted access token to the registry never runs for any token
the service itself issues. -/
theorem C10_refresh_never_succeeds_so_no_entry_added (td : TokenData)
    (client_ip ip2 : String) (now now2 : Int) (st st2 : ActiveTokens) :
    ∃ e : VerifyOutcome,
      refresh_token (create_refresh_token td client_ip now st).1 ip2 now2 st2
        = Except.error e := by
  obtain ⟨e, he⟩ := verify_refresh_minted_never_ok td client_ip ip2 now now2 st st2
  refine ⟨e, ?_⟩
  unfold refresh_token
  rw [he]
